import Mathlib

/-!
Verification of the chat-request / conversation / real-time fan-out core of
the `be-chat-app` backend.

The definitions below are a shallow embedding of the TypeScript sources:

* `src/src/modules/chatRequest/chatRequestService.ts` (`sendRequest`,
  `respondRequest`, `cancelRequest`),
* `src/unnamed/part_007` — the chat-request repository (`createRequest`,
  `findById`, `findPendingBetween`, `hasActiveRejectedCooldown`,
  `updateStatusWithClient`, `deleteById`),
* `src/unnamed/part_006` — the chat repository (`createChatWithClient`,
  `addMemberWithClient`, `hasPrivateChatBetween`),
* `src/unnamed/part_003` — `withTransaction` (BEGIN / COMMIT / ROLLBACK),
* `src/src/modules/chat/chatModel.ts` — the WebSocket event handlers, and
* `src/src/lib/websocket.ts` — room bookkeeping and `emitToRoom`.

The relational store is modelled as explicit lists of rows.  Row shapes
follow the zod row schemas of `chatRequestModel.ts` and `chatModel.ts`
(`ChatRequestRowSchema` with status in pending/accepted/rejected/blocked and
nullable `rejected_reason` / `cooldown_until`, `ChatRowSchema`,
`ChatMemberSchema`).  The uniqueness constraints come from the migrations:
`chat_requests_pair_unique` is a unique index on the unordered pair
`(LEAST(sender_id, receiver_id), GREATEST(sender_id, receiver_id))` with no
status filter, and `chat_members` is unique on `(chat_id, user_id)`.
Identifiers (uuids) are modelled as naturals drawn from a freshness counter,
timestamps as naturals (milliseconds).
-/

namespace BeChatApp

/-- Status enum of a chat request, from `ChatRequestRowSchema` in
`chatRequestModel.ts`: `z.enum(['pending', 'accepted', 'rejected', 'blocked'])`. -/
inductive RequestStatus where
  | pending
  | accepted
  | rejected
  | blocked
deriving DecidableEq, Repr

/-- Chat kind, from `ChatRowSchema`: `z.enum(['private', 'group'])`. -/
inductive ChatType where
  | «private»
  | group
deriving DecidableEq, Repr

/-- Membership role, from `ChatMemberSchema`: `z.enum(['admin', 'member'])`. -/
inductive MemberRole where
  | admin
  | member
deriving DecidableEq, Repr

/-- A row of the `chat_requests` table, following `ChatRequestRowSchema`. -/
structure ChatRequestRow where
  id : Nat
  sender_id : Nat
  receiver_id : Nat
  status : RequestStatus
  created_at : Nat
  responded_at : Option Nat
  rejected_reason : Option String
  cooldown_until : Option Nat
deriving DecidableEq, Repr

/-- A row of the `chats` table, following `ChatRowSchema`. -/
structure ChatRow where
  id : Nat
  type : ChatType
  title : Option String
  created_by : Option Nat
  created_at : Nat
deriving DecidableEq, Repr

/-- A row of the `chat_members` table, following `ChatMemberSchema`. -/
structure ChatMember where
  id : Nat
  chat_id : Nat
  user_id : Nat
  role : MemberRole
  joined_at : Nat
  last_read_message_id : Option Nat
deriving DecidableEq, Repr

/-- The durable store: the three tables the claims are about, plus the
freshness counter standing in for `gen_random_uuid()`. -/
structure DBState where
  chat_requests : List ChatRequestRow
  chats : List ChatRow
  chat_members : List ChatMember
  nextId : Nat
deriving DecidableEq, Repr

/-- Structured error, following the `HttpError(status, code, message)` class
used throughout the services, also used for raw store errors the services do
not translate. -/
structure HttpError where
  status : Nat
  code : String
  message : String
deriving DecidableEq, Repr

/-- `new HttpError(400, 'INVALID_REQUEST', ...)` in `sendRequest`. -/
def invalidRequestErr : HttpError :=
  ⟨400, "INVALID_REQUEST", "Cannot send request to self"⟩

/-- `new HttpError(409, 'CHAT_EXISTS', ...)` in `sendRequest`. -/
def chatExistsErr : HttpError :=
  ⟨409, "CHAT_EXISTS", "A chat already exists between these users"⟩

/-- `new HttpError(403, 'COOLDOWN_ACTIVE', ...)` in `sendRequest`. -/
def cooldownActiveErr : HttpError :=
  ⟨403, "COOLDOWN_ACTIVE", "You can send a new request after cooldown period"⟩

/-- `new HttpError(409, 'REQUEST_EXISTS', ...)` raised both by `sendRequest`
and by `createRequest` when the store reports a 23505 unique violation. -/
def requestExistsErr : HttpError :=
  ⟨409, "REQUEST_EXISTS", "A pending request already exists between these users"⟩

/-- `new HttpError(404, 'NOT_FOUND', ...)` in `respondRequest`. -/
def notFoundErr : HttpError :=
  ⟨404, "NOT_FOUND", "Chat request not found"⟩

/-- `new HttpError(400, 'ALREADY_RESPONDED', ...)` in `respondRequest`. -/
def alreadyRespondedErr : HttpError :=
  ⟨400, "ALREADY_RESPONDED", "Request already responded"⟩

/-- Raw Postgres 23505 on `chat_members_chat_id_user_id_unique`; nothing in
the accept path catches it, so it surfaces as-is. -/
def memberUniqueViolationErr : HttpError :=
  ⟨500, "23505", "duplicate key value violates unique constraint chat_members_chat_id_user_id_unique"⟩

/-- Raw Postgres 23514 on the `chat_requests_no_self` check constraint; only
23505 is translated by `createRequest`, so this one would surface as-is. -/
def selfCheckViolationErr : HttpError :=
  ⟨500, "23514", "new row violates check constraint chat_requests_no_self"⟩

/-- Whether an `Except` result is an error (a rejected promise). -/
def isError {ε α : Type} : Except ε α → Bool
  | .error _ => true
  | .ok _ => false

/-- Whether an `Except` result is a success. -/
def isOk {ε α : Type} : Except ε α → Bool
  | .error _ => false
  | .ok _ => true

/-- The unordered-pair predicate of the `chat_requests_pair_unique` unique
index: `(LEAST(sender_id, receiver_id), GREATEST(sender_id, receiver_id))`
collides with the pair `(a, b)`.  There is no status filter in the index. -/
def pairConflict (rows : List ChatRequestRow) (a b : Nat) : Bool :=
  rows.any fun r =>
    decide (min r.sender_id r.receiver_id = min a b ∧
            max r.sender_id r.receiver_id = max a b)

/-- `createRequest` (`part_007`): `INSERT INTO chat_requests (sender_id,
receiver_id) VALUES ($1, $2) RETURNING ...`; a 23505 from the pair-unique
index is translated to `REQUEST_EXISTS`.  The `chat_requests_no_self` check
constraint fires first and is not translated. -/
def createRequest (s : DBState) (senderId receiverId now : Nat) :
    DBState × Except HttpError ChatRequestRow :=
  if senderId = receiverId then
    (s, .error selfCheckViolationErr)
  else if pairConflict s.chat_requests senderId receiverId then
    (s, .error requestExistsErr)
  else
    let r : ChatRequestRow :=
      ⟨s.nextId, senderId, receiverId, .pending, now, none, none, none⟩
    ({ s with chat_requests := s.chat_requests ++ [r], nextId := s.nextId + 1 }, .ok r)

/-- `findById` (`part_007`): `SELECT ... FROM chat_requests WHERE id = $1`.
Note that in the source this runs on the shared pool (`query`), not on a
transaction client. -/
def findById (s : DBState) (id : Nat) : Option ChatRequestRow :=
  s.chat_requests.find? fun r => decide (r.id = id)

/-- `findPendingBetween` (`part_007`): matches either direction of the pair
and `status = 'pending'`. -/
def findPendingBetween (s : DBState) (userA userB : Nat) : Option ChatRequestRow :=
  s.chat_requests.find? fun r =>
    decide (((r.sender_id = userA ∧ r.receiver_id = userB) ∨
             (r.sender_id = userB ∧ r.receiver_id = userA)) ∧
            r.status = RequestStatus.pending)

/-- The `cooldown_until > current_timestamp` comparison, on a nullable
column: null never compares greater. -/
def cooldownStillActive (cooldownUntil : Option Nat) (now : Nat) : Bool :=
  match cooldownUntil with
  | some cu => decide (now < cu)
  | none => false

/-- `hasActiveRejectedCooldown` (`part_007`): directional, `sender_id = $1
AND receiver_id = $2 AND status = 'rejected' AND cooldown_until >
current_timestamp`. -/
def hasActiveRejectedCooldown (s : DBState) (senderId receiverId now : Nat) : Bool :=
  s.chat_requests.any fun r =>
    decide (r.sender_id = senderId ∧ r.receiver_id = receiverId ∧
            r.status = RequestStatus.rejected) &&
    cooldownStillActive r.cooldown_until now

/-- `updateStatusWithClient` (`part_007`): `UPDATE chat_requests SET status =
$1, responded_at = current_timestamp, rejected_reason = $2, cooldown_until =
$3 WHERE id = $4 RETURNING ...`.  The update is unconditional on the current
status.  Returns the updated row (or `none` when the id is absent). -/
def updateStatusWithClient (s : DBState) (id : Nat) (status : RequestStatus)
    (rejectedReason : Option String) (cooldownUntil : Option Nat) (now : Nat) :
    DBState × Option ChatRequestRow :=
  let f : ChatRequestRow → ChatRequestRow := fun r =>
    if r.id = id then
      { r with status := status, responded_at := some now,
               rejected_reason := rejectedReason, cooldown_until := cooldownUntil }
    else r
  ({ s with chat_requests := s.chat_requests.map f },
   (s.chat_requests.find? fun r => decide (r.id = id)).map f)

/-- `deleteById` (`part_007`): `DELETE FROM chat_requests WHERE id = $1`,
reporting whether a row was removed. -/
def deleteById (s : DBState) (id : Nat) : DBState × Bool :=
  ({ s with chat_requests := s.chat_requests.filter fun r => decide (r.id ≠ id) },
   s.chat_requests.any fun r => decide (r.id = id))

/-- `createChatWithClient` (`part_006`): `INSERT INTO chats (type, title,
created_by) VALUES ($1, $2, $3) RETURNING ...`; no constraint can fail. -/
def createChatWithClient (s : DBState) (type : ChatType) (title : Option String)
    (createdBy : Option Nat) (now : Nat) : DBState × ChatRow :=
  let c : ChatRow := ⟨s.nextId, type, title, createdBy, now⟩
  ({ s with chats := s.chats ++ [c], nextId := s.nextId + 1 }, c)

/-- `addMemberWithClient` (`part_006`): `INSERT INTO chat_members (chat_id,
user_id, role) VALUES ($1, $2, $3)`; fails with a raw 23505 when the
`(chat_id, user_id)` unique constraint is violated. -/
def addMemberWithClient (s : DBState) (chatId userId : Nat) (role : MemberRole)
    (now : Nat) : Except HttpError DBState :=
  if s.chat_members.any fun m => decide (m.chat_id = chatId ∧ m.user_id = userId) then
    .error memberUniqueViolationErr
  else
    .ok { s with
          chat_members := s.chat_members ++ [⟨s.nextId, chatId, userId, role, now, none⟩],
          nextId := s.nextId + 1 }

/-- `hasPrivateChatBetween` (`part_006`): a `private` chat with memberships
for both users. -/
def hasPrivateChatBetween (s : DBState) (userA userB : Nat) : Bool :=
  s.chats.any fun c =>
    decide (c.type = ChatType.«private») &&
    (s.chat_members.any fun m => decide (m.chat_id = c.id ∧ m.user_id = userA)) &&
    (s.chat_members.any fun m => decide (m.chat_id = c.id ∧ m.user_id = userB))

/-- `withTransaction` (`part_003`): BEGIN, run the body, COMMIT on success;
on any error ROLLBACK — the store state reverts to the state at BEGIN — and
the original error is rethrown. -/
def withTransaction {α : Type} (s : DBState)
    (fn : DBState → Except HttpError (DBState × α)) :
    DBState × Except HttpError α :=
  match fn s with
  | .ok (s2, a) => (s2, .ok a)
  | .error e => (s, .error e)

/-- Result shape of `respondRequest`: `{request, chat}`. -/
structure RespondResult where
  request : Option ChatRequestRow
  chat : Option ChatRow
deriving DecidableEq, Repr

/-- The transaction body of `respondRequest` (`chatRequestService.ts` lines
96–119), parameterised over the row produced by the `findById` read.  In the
source that read goes through the shared pool connection, not through the
transaction client, which is why the body is factored over it here: a body
may run against a store state later than the one its read observed. -/
def respondBody (s : DBState) (found : Option ChatRequestRow) (requestId : Nat)
    (accept block : Bool) (rejectedReason : Option String) (now : Nat) :
    Except HttpError (DBState × RespondResult) :=
  match found with
  | none => .error notFoundErr
  | some row =>
    if row.status ≠ RequestStatus.pending then
      .error alreadyRespondedErr
    else if accept then
      let cc := createChatWithClient s ChatType.«private» none (some row.sender_id) now
      match addMemberWithClient cc.1 cc.2.id row.sender_id MemberRole.admin now with
      | .error e => .error e
      | .ok s2 =>
        match addMemberWithClient s2 cc.2.id row.receiver_id MemberRole.member now with
        | .error e => .error e
        | .ok s3 =>
          let upd := updateStatusWithClient s3 requestId RequestStatus.accepted none none now
          .ok (upd.1, ⟨upd.2, some cc.2⟩)
    else if block then
      let upd := updateStatusWithClient s requestId RequestStatus.blocked none none now
      .ok (upd.1, ⟨upd.2, none⟩)
    else
      let cooldownUntil := now + 7 * 24 * 60 * 60 * 1000
      let upd := updateStatusWithClient s requestId RequestStatus.rejected
        rejectedReason (some cooldownUntil) now
      .ok (upd.1, ⟨upd.2, none⟩)

/-- `respondRequest` (`chatRequestService.ts` lines 90–121): the body runs
inside `executeInTransaction`, with the row read by `findById` at the start. -/
def respondRequest (s : DBState) (requestId : Nat) (accept block : Bool)
    (rejectedReason : Option String) (now : Nat) :
    DBState × Except HttpError RespondResult :=
  withTransaction s fun s0 =>
    respondBody s0 (findById s0 requestId) requestId accept block rejectedReason now

/-- `sendRequest` (`chatRequestService.ts` lines 62–80): self check, existing
private chat, directional rejection cooldown, pending duplicate, then insert. -/
def sendRequest (s : DBState) (senderId receiverId now : Nat) :
    DBState × Except HttpError ChatRequestRow :=
  if senderId = receiverId then (s, .error invalidRequestErr)
  else if hasPrivateChatBetween s senderId receiverId then (s, .error chatExistsErr)
  else if hasActiveRejectedCooldown s senderId receiverId now then
    (s, .error cooldownActiveErr)
  else if (findPendingBetween s senderId receiverId).isSome then
    (s, .error requestExistsErr)
  else createRequest s senderId receiverId now

/-- A transaction of `respondRequest` whose `findById` read is supplied from
outside.  This is exactly `respondRequest` when the read is performed against
the same state; it also expresses an interleaved execution in which the read
of a second, concurrent call happened before the first call committed — which
the source permits, since `findById` runs on the shared pool connection with
no row lock and `updateStatusWithClient` has no `status = 'pending'` guard. -/
def respondWithRead (s : DBState) (found : Option ChatRequestRow) (requestId : Nat)
    (accept block : Bool) (rejectedReason : Option String) (now : Nat) :
    DBState × Except HttpError RespondResult :=
  withTransaction s fun s0 =>
    respondBody s0 found requestId accept block rejectedReason now

/-- Two concurrent `respondRequest(accept)` calls on the same request under
READ COMMITTED, in the interleaving where both pool reads complete before
either transaction commits: both bodies act on the row as read from the
initial state, and the writes serialise in commit order. -/
def respondRequestPair (s : DBState) (requestId now : Nat) :
    DBState × (Except HttpError RespondResult × Except HttpError RespondResult) :=
  let found := findById s requestId
  let o1 := respondWithRead s found requestId true false none now
  let o2 := respondWithRead o1.1 found requestId true false none now
  (o2.1, (o1.2, o2.2))

/-- Freshness of the id counter: every id already present in the store is
below `nextId`, as `gen_random_uuid()` never collides with existing ids. -/
def DBState.fresh (s : DBState) : Bool :=
  (s.chats.all fun c => decide (c.id < s.nextId)) &&
  (s.chat_members.all fun m => decide (m.id < s.nextId ∧ m.chat_id < s.nextId)) &&
  (s.chat_requests.all fun r => decide (r.id < s.nextId))

/-- Number of private chats in the store of which both users are members. -/
def countPrivateChatsBetween (s : DBState) (userA userB : Nat) : Nat :=
  (s.chats.filter fun c =>
    decide (c.type = ChatType.«private») &&
    (s.chat_members.any fun m => decide (m.chat_id = c.id ∧ m.user_id = userA)) &&
    (s.chat_members.any fun m => decide (m.chat_id = c.id ∧ m.user_id = userB))).length

/-- Whether a user holds a Membership of a chat — the check the WebSocket
join and send handlers leave as a `TODO` (`chatService.isUserMember` in the
commented-out code of `chatModel.ts`). -/
def isUserMember (s : DBState) (userId chatId : Nat) : Bool :=
  s.chat_members.any fun m => decide (m.chat_id = chatId ∧ m.user_id = userId)

/-- An authenticated real-time connection: the socket id together with the
`userId` the auth middleware in `index.ts` attaches after verifying the
handshake token. -/
structure Socket where
  sid : Nat
  userId : Nat
deriving DecidableEq, Repr

/-- The Socket.IO room bookkeeping of `websocket.ts`: which sockets have
joined which room (one room id per chat id). -/
structure RoomState where
  rooms : List (Nat × Nat)
deriving DecidableEq, Repr

/-- Whether a socket is currently in a room. -/
def inRoom (st : RoomState) (chatId sid : Nat) : Bool :=
  st.rooms.any fun p => decide (p.1 = chatId ∧ p.2 = sid)

/-- `ws.joinRoom` (`websocket.ts`): `socket.join(room)`; Socket.IO rooms are
sets, so a repeated join is a no-op. -/
def joinRoom (st : RoomState) (sid chatId : Nat) : RoomState :=
  if inRoom st chatId sid then st else ⟨(chatId, sid) :: st.rooms⟩

/-- `ws.leaveRoom` (`websocket.ts`): `socket.leave(room)`. -/
def leaveRoom (st : RoomState) (sid chatId : Nat) : RoomState :=
  ⟨st.rooms.filter fun p => decide (¬(p.1 = chatId ∧ p.2 = sid))⟩

/-- A server→client event, with the payload fields the handlers of
`chatModel.ts` construct. -/
inductive ServerEvent where
  | errorEvent (event : String)
  | chatJoined (chatId ts : Nat)
  | chatUserJoined (chatId userId ts : Nat)
  | chatLeft (chatId ts : Nat)
  | chatUserLeft (chatId userId ts : Nat)
  | chatNewMessage (id : String) (chatId userId : Nat) (content : String) (createdAt : Nat)
  | chatUserTyping (chatId userId : Nat) (isTyping : Bool) (ts : Nat)
  | chatMessageRead (chatId userId messageId ts : Nat)
deriving DecidableEq, Repr

/-- One emission performed by a handler: `socket.emit` (to the originating
socket only), `socket.to(room).emit` (to every socket in the room except the
originating one), or `io.to(room).emit` via `ws.emitToRoom` (to every socket
in the room, the originating one included). -/
inductive Emission where
  | toSocket (sid : Nat) (ev : ServerEvent)
  | toRoomOthers (chatId senderSid : Nat) (ev : ServerEvent)
  | toRoomAll (chatId : Nat) (ev : ServerEvent)
deriving DecidableEq, Repr

/-- Whether the socket `sid` receives an emission, given the current room
membership. -/
def receives (st : RoomState) (em : Emission) (sid : Nat) : Bool :=
  match em with
  | .toSocket target _ => decide (sid = target)
  | .toRoomOthers chatId senderSid _ => inRoom st chatId sid && decide (sid ≠ senderSid)
  | .toRoomAll chatId _ => inRoom st chatId sid

/-- Whether the socket `sid` receives at least one of a list of emissions. -/
def receivesAny (st : RoomState) (ems : List Emission) (sid : Nat) : Bool :=
  ems.any fun em => receives st em sid

/-- The `SendMessageSchema` content validation of `chatModel.ts`:
`z.string().min(1).max(5000)`. -/
def contentOk (content : String) : Bool :=
  decide (1 ≤ content.length ∧ content.length ≤ 5000)

/-- The message id the send handler fabricates: `msg-${Date.now()}`. -/
def tempMessageId (now : Nat) : String :=
  "msg-" ++ toString now

/-- The `chat:join` handler of `chatModel.ts` (lines 69–113).  The payload's
`chatId` is `none` when `JoinChatSchema` validation fails.  The membership
verification is a commented-out `TODO` in the source, so the handler joins
the room and confirms unconditionally; the store state `db` is never
consulted. -/
def handleJoin (db : DBState) (st : RoomState) (sock : Socket)
    (chatId : Option Nat) (now : Nat) : RoomState × List Emission :=
  let _ := db
  match chatId with
  | none => (st, [.toSocket sock.sid (.errorEvent "chat:join")])
  | some cid =>
    (joinRoom st sock.sid cid,
     [.toSocket sock.sid (.chatJoined cid now),
      .toRoomOthers cid sock.sid (.chatUserJoined cid sock.userId now)])

/-- The `chat:leave` handler of `chatModel.ts` (lines 116–149). -/
def handleLeave (st : RoomState) (sock : Socket) (chatId : Option Nat)
    (now : Nat) : RoomState × List Emission :=
  match chatId with
  | none => (st, [.toSocket sock.sid (.errorEvent "chat:leave")])
  | some cid =>
    (leaveRoom st sock.sid cid,
     [.toSocket sock.sid (.chatLeft cid now),
      .toRoomOthers cid sock.sid (.chatUserLeft cid sock.userId now)])

/-- The `chat:send_message` handler of `chatModel.ts` (lines 152–196).  The
payload's `chatId` is `none` when it is not a uuid; content length is checked
by `SendMessageSchema`.  Both the membership verification and the database
write are commented-out `TODO`s in the source: the handler broadcasts a
fabricated message object to the room via `ws.emitToRoom` without consulting
the store `db` or the sender's own room membership. -/
def handleSendMessage (db : DBState) (st : RoomState) (sock : Socket)
    (chatId : Option Nat) (content : String) (now : Nat) : List Emission :=
  let _ := db
  let _ := st
  match chatId with
  | none => [.toSocket sock.sid (.errorEvent "chat:send_message")]
  | some cid =>
    if contentOk content then
      [.toRoomAll cid (.chatNewMessage (tempMessageId now) cid sock.userId content now)]
    else
      [.toSocket sock.sid (.errorEvent "chat:send_message")]

/-- The `chat:typing` handler of `chatModel.ts` (lines 199–216): malformed
payloads are dropped silently; otherwise broadcast to the others in the room. -/
def handleTyping (st : RoomState) (sock : Socket) (payload : Option (Nat × Bool))
    (now : Nat) : List Emission :=
  let _ := st
  match payload with
  | none => []
  | some (cid, isTyping) =>
    [.toRoomOthers cid sock.sid (.chatUserTyping cid sock.userId isTyping now)]

/-- The `chat:mark_read` handler of `chatModel.ts` (lines 219–248).  The
update of `chat_members.last_read_message_id` is a commented-out `TODO` in
the source, so the store state `db` passes through unchanged; the handler
only notifies the other sockets in the room. -/
def handleMarkRead (db : DBState) (st : RoomState) (sock : Socket)
    (chatId messageId : Option Nat) (now : Nat) : DBState × List Emission :=
  let _ := st
  match chatId, messageId with
  | some cid, some mid =>
    (db, [.toRoomOthers cid sock.sid (.chatMessageRead cid sock.userId mid now)])
  | _, _ => (db, [.toSocket sock.sid (.errorEvent "chat:mark_read")])

/-! ## Helper lemmas -/

/-- Lookup by id commutes with mapping an id-preserving update over the rows. -/
theorem find?_id_map (l : List ChatRequestRow) (f : ChatRequestRow → ChatRequestRow)
    (hf : ∀ r, (f r).id = r.id) (id : Nat) :
    (l.map f).find? (fun r => decide (r.id = id)) =
      (l.find? fun r => decide (r.id = id)).map f := by
  induction l with
  | nil => rfl
  | cons a t ih =>
    by_cases h : a.id = id
    · simp [List.find?_cons, hf, h]
    · simp [List.find?_cons, hf, h, ih]

/-- `findById` after `updateStatusWithClient` returns exactly the row the
`RETURNING` clause reported. -/
theorem findById_updateStatus (s : DBState) (id : Nat) (st : RequestStatus)
    (reason : Option String) (cu : Option Nat) (now : Nat) :
    findById (updateStatusWithClient s id st reason cu now).1 id =
      (updateStatusWithClient s id st reason cu now).2 := by
  unfold findById updateStatusWithClient
  exact find?_id_map _ _ (fun r => by by_cases h : r.id = id <;> simp [h]) id

/-- The pair-unique index collides as soon as any stored row links the same
unordered pair, in either direction and with any status. -/
theorem pairConflict_of_mem {rows : List ChatRequestRow} {r : ChatRequestRow}
    (hm : r ∈ rows) (a b : Nat)
    (hdir : (r.sender_id = a ∧ r.receiver_id = b) ∨
            (r.sender_id = b ∧ r.receiver_id = a)) :
    pairConflict rows a b = true := by
  unfold pairConflict
  rw [List.any_eq_true]
  refine ⟨r, hm, ?_⟩
  rcases hdir with ⟨h1, h2⟩ | ⟨h1, h2⟩ <;>
    simp [h1, h2, Nat.min_comm, Nat.max_comm]

/-- While any row between the unordered pair is stored, `sendRequest` in that
direction cannot succeed and leaves the store unchanged. -/
theorem sendRequest_fails_of_pairConflict (s : DBState) (a b now : Nat) (hne : a ≠ b)
    (hconf : pairConflict s.chat_requests a b = true) :
    (sendRequest s a b now).1 = s ∧ isError (sendRequest s a b now).2 = true := by
  unfold sendRequest createRequest
  split_ifs <;> simp_all [isError]

/-- In a fresh store no membership row can mention the chat id about to be
allocated. -/
theorem no_member_conflict_at_fresh {s : DBState} (hfresh : s.fresh = true) (u : Nat) :
    (s.chat_members.any fun m => decide (m.chat_id = s.nextId ∧ m.user_id = u)) = false := by
  unfold DBState.fresh at hfresh
  simp only [Bool.and_eq_true, List.all_eq_true, decide_eq_true_eq] at hfresh
  rw [List.any_eq_false]
  intro m hm
  have := (hfresh.1.2 m hm).2
  simp only [decide_eq_true_eq, not_and]
  intro hc
  omega

/-! ## Concrete stores used as witnesses and counterexamples -/

/-- A store with one private chat (id 1) whose members are users 1 and 2;
user 3 is not a member. -/
def joinStore : DBState :=
  ⟨[], [⟨1, .«private», none, some 1, 0⟩],
   [⟨2, 1, 1, .admin, 0, none⟩, ⟨3, 1, 2, .member, 0, none⟩], 4⟩

/-- A store with one private chat (id 1) with members 1 and 2, none of whom
has read anything yet (`last_read_message_id` is null). -/
def markReadStore : DBState :=
  ⟨[], [⟨1, .«private», none, some 1, 0⟩],
   [⟨2, 1, 1, .admin, 0, none⟩, ⟨3, 1, 2, .member, 0, none⟩], 4⟩

/-- A store with a single pending request (id 10) from user 1 to user 2. -/
def pendingStoreC3 : DBState := ⟨[⟨10, 1, 2, .pending, 0, none, none, none⟩], [], [], 11⟩

/-- A store with a single pending request (id 10) from user 1 to user 2. -/
def pendingStoreC4 : DBState := ⟨[⟨10, 1, 2, .pending, 0, none, none, none⟩], [], [], 11⟩

/-- A store with a single pending request (id 10) from user 1 to user 2. -/
def pendingStoreC1 : DBState := ⟨[⟨10, 1, 2, .pending, 0, none, none, none⟩], [], [], 11⟩

/-- A store with a single pending request (id 10) from user 1 to user 2. -/
def pendingStoreC3s : DBState := ⟨[⟨10, 1, 2, .pending, 0, none, none, none⟩], [], [], 11⟩

/-- A store with a single pending request (id 10) from user 1 to user 2. -/
def pendingStoreC5 : DBState := ⟨[⟨10, 1, 2, .pending, 0, none, none, none⟩], [], [], 11⟩

/-- A rejected request from user 1 to user 2 whose cooldown ended at time
100 (responded at 50). -/
def rejectedStoreC5 : DBState :=
  ⟨[⟨10, 1, 2, .rejected, 0, some 50, some "not now", some 100⟩], [], [], 11⟩

/-- A rejected request from user 1 to user 2 whose cooldown runs until time
100. -/
def rejectedStoreC6 : DBState :=
  ⟨[⟨10, 1, 2, .rejected, 0, some 50, some "not now", some 100⟩], [], [], 11⟩

/-- A rejected request from user 1 to user 2 whose cooldown runs until time
100. -/
def rejectedStoreC6w : DBState :=
  ⟨[⟨10, 1, 2, .rejected, 0, some 50, some "busy", some 100⟩], [], [], 11⟩

/-- A store holding a single already-accepted request between users 1 and 2. -/
def acceptedStoreC9 : DBState :=
  ⟨[⟨10, 1, 2, .accepted, 0, some 5, none, none⟩], [], [], 11⟩

/-- Room state in which only socket 9 has joined room 1. -/
def roomStateC10 : RoomState := ⟨[(1, 9)]⟩

/-- Room state in which sockets 7 and 9 are in room 1 and socket 11 is in
room 2. -/
def roomStateC8 : RoomState := ⟨[(1, 7), (1, 9), (2, 11)]⟩

/-! ## Claim theorems -/

/-- **C2** (code bug).  The spec requires `join(roomId)` by a connection
whose authenticated user is not a Membership of the conversation to fail
without adding the connection to the room.  The source leaves the membership
verification as a commented-out `TODO`: evaluating the `chat:join` handler
for user 3 — who is not a member of chat 1 in `joinStore` — adds socket 7 to
room 1, emits the `chat:joined` confirmation instead of an error, and from
then on the socket receives room-1 events. -/
theorem chat_join_skips_membership_check :
    isUserMember joinStore 3 1 = false ∧
    (handleJoin joinStore ⟨[]⟩ ⟨7, 3⟩ (some 1) 99).1 = ⟨[(1, 7)]⟩ ∧
    (handleJoin joinStore ⟨[]⟩ ⟨7, 3⟩ (some 1) 99).2 =
      [.toSocket 7 (.chatJoined 1 99),
       .toRoomOthers 1 7 (.chatUserJoined 1 3 99)] ∧
    receivesAny (handleJoin joinStore ⟨[]⟩ ⟨7, 3⟩ (some 1) 99).1
      [.toRoomAll 1 (.chatNewMessage "msg-120" 1 1 "hello" 120)] 7 = true := by
  decide

/-- **C7** (code bug).  The spec says `markRead(roomId, messageId)` updates
the caller's `Membership.lastReadMessageId` and notifies the room.  The
update is a commented-out `TODO` in the source: evaluating the handler for
member user 1 of chat 1 leaves the store untouched — the member's
`last_read_message_id` is still null — and only emits the read notification
to the other sockets of the room. -/
theorem mark_read_leaves_store_unchanged :
    isUserMember markReadStore 1 1 = true ∧
    (handleMarkRead markReadStore ⟨[(1, 5), (1, 9)]⟩ ⟨5, 1⟩ (some 1) (some 42) 7).1 =
      markReadStore ∧
    (handleMarkRead markReadStore ⟨[(1, 5), (1, 9)]⟩ ⟨5, 1⟩ (some 1) (some 42) 7).2 =
      [.toRoomOthers 1 5 (.chatMessageRead 1 1 42 7)] ∧
    ((markReadStore.chat_members.find? fun m => decide (m.chat_id = 1 ∧ m.user_id = 1)).map
      fun m => m.last_read_message_id) = some none := by
  decide

/-- **C3 counterexample.**  Two simultaneous `respond(accept)` calls on
pending request 10 whose `findById` reads both complete before either
transaction commits — an interleaving the source permits, because the read
runs on the shared pool connection without a row lock and the status update
has no `status = 'pending'` guard — both succeed, and the store ends up with
two private conversations between users 1 and 2, contradicting the claimed
"exactly one success and one AlreadyResponded/NotFound failure". -/
theorem concurrent_responds_both_succeed :
    isOk (respondRequestPair pendingStoreC3 10 77).2.1 = true ∧
    isOk (respondRequestPair pendingStoreC3 10 77).2.2 = true ∧
    countPrivateChatsBetween (respondRequestPair pendingStoreC3 10 77).1 1 2 = 2 := by
  decide

/-- **C5 counterexample.**  After the rejection cooldown has fully elapsed
(`cooldown_until = 100 ≤ now = 100`), the claim says the original sender's
`submit()` succeeds; on the code it still fails, now with the 409
`REQUEST_EXISTS` translation of the pair-unique-index violation, because the
rejected row is retained forever and `chat_requests_pair_unique` has no
status filter. -/
theorem resubmit_after_cooldown_expiry_fails :
    cooldownStillActive (some 100) 100 = false ∧
    sendRequest rejectedStoreC5 1 2 100 = (rejectedStoreC5, .error requestExistsErr) :=
  ⟨rfl, rfl⟩

/-- **C6 counterexample.**  While the rejected request from user 1 to user 2
still has its cooldown active (now = 99 < 100), the claim says user 2's
`submit()` to user 1 succeeds.  On the code the reverse submission indeed
passes the directional cooldown check, but then fails with `REQUEST_EXISTS`:
the pair-unique index covers the stored rejected row in either direction. -/
theorem receiver_submit_to_sender_fails :
    hasActiveRejectedCooldown rejectedStoreC6 1 2 99 = true ∧
    hasActiveRejectedCooldown rejectedStoreC6 2 1 99 = false ∧
    sendRequest rejectedStoreC6 2 1 99 = (rejectedStoreC6, .error requestExistsErr) :=
  ⟨rfl, rfl, rfl⟩

/-- **C9.**  The `chat_requests_pair_unique` index covers all rows, not only
pending ones: while any request row between an unordered pair of distinct
users is stored — whatever its status and direction — a further insert
between that pair fails and is translated by `createRequest` to the 409
`REQUEST_EXISTS` (`RequestAlreadyExists`) error, leaving the store unchanged. -/
theorem pair_unique_rejects_any_second_request (s : DBState) (a b now : Nat)
    (r : ChatRequestRow) (hmem : r ∈ s.chat_requests)
    (hdir : (r.sender_id = a ∧ r.receiver_id = b) ∨
            (r.sender_id = b ∧ r.receiver_id = a))
    (hne : a ≠ b) :
    createRequest s a b now = (s, .error requestExistsErr) ∧
    requestExistsErr.status = 409 ∧ requestExistsErr.code = "REQUEST_EXISTS" := by
  have hc := pairConflict_of_mem hmem a b hdir
  refine ⟨?_, rfl, rfl⟩
  unfold createRequest
  simp [hne, hc]

/-- Witness for C9: with an accepted request between users 1 and 2 on file,
a new insert from 2 to 1 is rejected with `REQUEST_EXISTS`. -/
theorem pair_unique_rejects_any_second_request_witness :
    createRequest acceptedStoreC9 2 1 77 = (acceptedStoreC9, .error requestExistsErr) ∧
    requestExistsErr.status = 409 ∧ requestExistsErr.code = "REQUEST_EXISTS" :=
  pair_unique_rejects_any_second_request acceptedStoreC9 2 1 77
    ⟨10, 1, 2, .accepted, 0, some 5, none, none⟩ (by decide) (by decide) (by decide)

/-- **C8.**  `sendMessage` content must be non-empty and at most 5000
characters: a malformed payload produces a structured error to the sender
only and no broadcast, while a well-formed one produces exactly one message
event — carrying the fabricated message id, the sender's user id, the
content and the timestamp — that is received by precisely the connections
currently joined to the room (the sender's own connections included, if
joined) and by no connection outside the room. -/
theorem send_message_validated_fanout (db : DBState) (st : RoomState) (sock : Socket)
    (chatId : Nat) (content : String) (now : Nat) :
    (contentOk content = true →
      handleSendMessage db st sock (some chatId) content now =
        [.toRoomAll chatId (.chatNewMessage (tempMessageId now) chatId sock.userId content now)] ∧
      ∀ sid, receivesAny st (handleSendMessage db st sock (some chatId) content now) sid =
        inRoom st chatId sid) ∧
    (contentOk content = false →
      handleSendMessage db st sock (some chatId) content now =
        [.toSocket sock.sid (.errorEvent "chat:send_message")] ∧
      ∀ sid, receivesAny st (handleSendMessage db st sock (some chatId) content now) sid =
        decide (sid = sock.sid)) ∧
    handleSendMessage db st sock none content now =
      [.toSocket sock.sid (.errorEvent "chat:send_message")] := by
  refine ⟨fun hok => ?_, fun hbad => ?_, rfl⟩
  · simp [handleSendMessage, hok, receivesAny, receives]
  · simp [handleSendMessage, hbad, receivesAny, receives]

/-- Witness for C8: with sockets 7 and 9 in room 1 and socket 11 in room 2,
a valid message from socket 7 to room 1 is received by 7 and 9 and not by 11. -/
theorem send_message_validated_fanout_witness :
    contentOk "hi" = true ∧
    handleSendMessage joinStore roomStateC8 ⟨7, 1⟩ (some 1) "hi" 5 =
      [.toRoomAll 1 (.chatNewMessage "msg-5" 1 1 "hi" 5)] ∧
    receivesAny roomStateC8 (handleSendMessage joinStore roomStateC8 ⟨7, 1⟩ (some 1) "hi" 5) 7 = true ∧
    receivesAny roomStateC8 (handleSendMessage joinStore roomStateC8 ⟨7, 1⟩ (some 1) "hi" 5) 9 = true ∧
    receivesAny roomStateC8 (handleSendMessage joinStore roomStateC8 ⟨7, 1⟩ (some 1) "hi" 5) 11 = false := by
  have h := (send_message_validated_fanout joinStore roomStateC8 ⟨7, 1⟩ 1 "hi" 5).1 (by decide)
  exact ⟨by decide, h.1, by rw [h.2 7]; decide, by rw [h.2 9]; decide, by rw [h.2 11]; decide⟩

/-- **C10.**  The `chat:send_message` handler performs no access control
beyond payload validation: for any store state and any room state — in
particular when the sending user holds no Membership of the conversation and
the sending socket never joined the room — a payload with a uuid room id and
1–5000 characters of content is broadcast to the room, and every connection
currently joined to that room receives it. -/
theorem send_message_no_access_control (db : DBState) (st : RoomState) (sock : Socket)
    (chatId : Nat) (content : String) (now : Nat) (hok : contentOk content = true) :
    handleSendMessage db st sock (some chatId) content now =
      [.toRoomAll chatId (.chatNewMessage (tempMessageId now) chatId sock.userId content now)] ∧
    ∀ sid, inRoom st chatId sid = true →
      receivesAny st (handleSendMessage db st sock (some chatId) content now) sid = true := by
  constructor
  · simp [handleSendMessage, hok]
  · intro sid hin
    simp [handleSendMessage, hok, receivesAny, receives, hin]

/-- The row the repository reports back when `updateStatusWithClient`
matched a row: the found row with the updated columns. -/
theorem updateStatus_returns_updated_row (s : DBState) (id now : Nat)
    (row : ChatRequestRow) (hfind : findById s id = some row)
    (st : RequestStatus) (reason : Option String) (cu : Option Nat) :
    (updateStatusWithClient s id st reason cu now).2 =
      some { row with status := st, responded_at := some now,
                      rejected_reason := reason, cooldown_until := cu } := by
  have hid : row.id = id := by
    have := List.find?_some hfind
    simpa using this
  unfold updateStatusWithClient
  unfold findById at hfind
  rw [hfind]
  simp [hid]

/-- The updated row is stored after `updateStatusWithClient`. -/
theorem updateStatus_mem (s : DBState) (id now : Nat)
    (row : ChatRequestRow) (hfind : findById s id = some row)
    (st : RequestStatus) (reason : Option String) (cu : Option Nat) :
    { row with status := st, responded_at := some now,
               rejected_reason := reason, cooldown_until := cu } ∈
      (updateStatusWithClient s id st reason cu now).1.chat_requests := by
  have hid : row.id = id := by
    have := List.find?_some hfind
    simpa using this
  have hmem : row ∈ s.chat_requests := List.mem_of_find?_eq_some hfind
  unfold updateStatusWithClient
  have := List.mem_map_of_mem
    (fun r => if r.id = id then
        { r with status := st, responded_at := some now,
                 rejected_reason := reason, cooldown_until := cu }
      else r) hmem
  simpa [hid] using this

/-- Reduction of `respondRequest` on a pending row for the `block` decision. -/
theorem respondRequest_block_eq (s : DBState) (id now : Nat) (row : ChatRequestRow)
    (hfind : findById s id = some row) (hpend : row.status = RequestStatus.pending) :
    respondRequest s id false true none now =
      ((updateStatusWithClient s id RequestStatus.blocked none none now).1,
       .ok ⟨(updateStatusWithClient s id RequestStatus.blocked none none now).2, none⟩) := by
  unfold respondRequest withTransaction respondBody
  simp [hfind, hpend]

/-- Reduction of `respondRequest` on a pending row for the `reject` decision. -/
theorem respondRequest_reject_eq (s : DBState) (id now : Nat) (row : ChatRequestRow)
    (reason : Option String)
    (hfind : findById s id = some row) (hpend : row.status = RequestStatus.pending) :
    respondRequest s id false false reason now =
      ((updateStatusWithClient s id RequestStatus.rejected reason
          (some (now + 7 * 24 * 60 * 60 * 1000)) now).1,
       .ok ⟨(updateStatusWithClient s id RequestStatus.rejected reason
          (some (now + 7 * 24 * 60 * 60 * 1000)) now).2, none⟩) := by
  unfold respondRequest withTransaction respondBody
  simp [hfind, hpend]

/-- Whether a request row links the unordered pair `(a, b)`, in either
direction.  Used in hypotheses describing what the store holds for a pair. -/
def betweenPair (a b : Nat) (r : ChatRequestRow) : Bool :=
  decide ((r.sender_id = a ∧ r.receiver_id = b) ∨
          (r.sender_id = b ∧ r.receiver_id = a))

/-- The single row between a pair is stored. -/
theorem mem_of_pair_filter {s : DBState} {a b : Nat} {row : ChatRequestRow}
    (h : s.chat_requests.filter (betweenPair a b) = [row]) :
    row ∈ s.chat_requests := by
  apply List.mem_of_mem_filter (p := betweenPair a b)
  rw [h]
  exact List.mem_singleton_self row

/-- Any stored row between the pair is the single row between the pair. -/
theorem eq_of_pair_filter {s : DBState} {a b : Nat} {row r : ChatRequestRow}
    (h : s.chat_requests.filter (betweenPair a b) = [row])
    (hr : r ∈ s.chat_requests) (hb : betweenPair a b r = true) : r = row := by
  have hm : r ∈ s.chat_requests.filter (betweenPair a b) := List.mem_filter.mpr ⟨hr, hb⟩
  rw [h] at hm
  simpa using hm

/-- When the single row between the pair runs from `a` to `b`, the
directional cooldown check for submissions from `a` to `b` is decided by
that row alone. -/
theorem hasActiveRejectedCooldown_eq_of_pair_filter (s : DBState) (a b now : Nat)
    (row : ChatRequestRow)
    (hfilter : s.chat_requests.filter (betweenPair a b) = [row])
    (hsend : row.sender_id = a) (hrecv : row.receiver_id = b) :
    hasActiveRejectedCooldown s a b now =
      (decide (row.status = RequestStatus.rejected) &&
       cooldownStillActive row.cooldown_until now) := by
  unfold hasActiveRejectedCooldown
  by_cases hval : (decide (row.status = RequestStatus.rejected) &&
      cooldownStillActive row.cooldown_until now) = true
  · rw [hval, List.any_eq_true]
    refine ⟨row, mem_of_pair_filter hfilter, ?_⟩
    simp only [Bool.and_eq_true, decide_eq_true_eq] at hval ⊢
    exact ⟨⟨hsend, hrecv, hval.1⟩, hval.2⟩
  · rw [Bool.not_eq_true] at hval
    rw [hval, List.any_eq_false]
    intro r hr
    simp only [Bool.and_eq_true, decide_eq_true_eq, not_and]
    intro hprop
    have hbp : betweenPair a b r = true := by
      unfold betweenPair
      exact decide_eq_true (Or.inl ⟨hprop.1, hprop.2.1⟩)
    have hreq := eq_of_pair_filter hfilter hr hbp
    subst hreq
    intro hcool
    simp [hprop.2.2, hcool] at hval

/-- When the single row between the pair runs from `a` to `b`, the cooldown
check for the reverse direction (`b` to `a`) never fires. -/
theorem hasActiveRejectedCooldown_reverse_false (s : DBState) (a b now : Nat)
    (row : ChatRequestRow)
    (hfilter : s.chat_requests.filter (betweenPair a b) = [row])
    (hsend : row.sender_id = a) (hne : a ≠ b) :
    hasActiveRejectedCooldown s b a now = false := by
  unfold hasActiveRejectedCooldown
  rw [List.any_eq_false]
  intro r hr
  simp only [Bool.and_eq_true, decide_eq_true_eq, not_and]
  intro hprop
  have hbp : betweenPair a b r = true := by
    unfold betweenPair
    exact decide_eq_true (Or.inr ⟨hprop.1, hprop.2.1⟩)
  have hreq := eq_of_pair_filter hfilter hr hbp
  subst hreq
  exact absurd (hsend.symm.trans hprop.1) hne

/-- When the single row between the pair is not pending, no pending request
is found between them, in either query direction. -/
theorem findPendingBetween_none_of_pair_filter (s : DBState) (a b x y : Nat)
    (row : ChatRequestRow)
    (hfilter : s.chat_requests.filter (betweenPair a b) = [row])
    (hst : row.status ≠ RequestStatus.pending)
    (hxy : (x = a ∧ y = b) ∨ (x = b ∧ y = a)) :
    findPendingBetween s x y = none := by
  unfold findPendingBetween
  rw [List.find?_eq_none]
  intro r hr
  simp only [decide_eq_true_eq, not_and]
  intro hdir
  have hbp : betweenPair a b r = true := by
    unfold betweenPair
    rcases hxy with ⟨hx, hy⟩ | ⟨hx, hy⟩ <;> subst hx <;> subst hy <;>
      rcases hdir with ⟨h1, h2⟩ | ⟨h1, h2⟩ <;>
        first
          | exact decide_eq_true (Or.inl ⟨h1, h2⟩)
          | exact decide_eq_true (Or.inr ⟨h1, h2⟩)
  rw [eq_of_pair_filter hfilter hr hbp]
  exact hst

/-- Filtering commutes with a row update that does not change the filtered
attribute. -/
theorem filter_map_of_pred_invariant (l : List ChatRequestRow)
    (f : ChatRequestRow → ChatRequestRow) (p : ChatRequestRow → Bool)
    (hpf : ∀ r, p (f r) = p r) :
    (l.map f).filter p = (l.filter p).map f := by
  induction l with
  | nil => rfl
  | cons x t ih =>
    by_cases h : p x = true
    · simp [List.filter_cons, hpf, h, ih]
    · simp only [List.map_cons, List.filter_cons, hpf, h]
      simp only [Bool.false_eq_true] at h
      simp [h, ih]

/-- `updateStatusWithClient` rewrites the stored rows pointwise. -/
theorem updateStatus_rows_shape (s : DBState) (id : Nat) (st : RequestStatus)
    (reason : Option String) (cu : Option Nat) (now : Nat) :
    (updateStatusWithClient s id st reason cu now).1.chat_requests =
      s.chat_requests.map (fun r => if r.id = id then
        { r with status := st, responded_at := some now,
                 rejected_reason := reason, cooldown_until := cu } else r) := rfl

/-- `updateStatusWithClient` touches neither chats nor memberships, so the
private-chat existence check is unchanged. -/
theorem hasPrivateChatBetween_updateStatus (s : DBState) (id : Nat)
    (st : RequestStatus) (reason : Option String) (cu : Option Nat)
    (now x y : Nat) :
    hasPrivateChatBetween (updateStatusWithClient s id st reason cu now).1 x y =
      hasPrivateChatBetween s x y := rfl

/-- After `updateStatusWithClient` on the single row between a pair, the
single row between that pair is the updated row. -/
theorem pair_rows_after_update (s : DBState) (id now : Nat) (row : ChatRequestRow)
    (a b : Nat)
    (hfilter : s.chat_requests.filter (betweenPair a b) = [row])
    (hrow_id : row.id = id)
    (st : RequestStatus) (reason : Option String) (cu : Option Nat) :
    (updateStatusWithClient s id st reason cu now).1.chat_requests.filter (betweenPair a b) =
      [{ row with status := st, responded_at := some now,
                  rejected_reason := reason, cooldown_until := cu }] := by
  rw [updateStatus_rows_shape]
  rw [filter_map_of_pred_invariant _ _ _ (fun r => by
    by_cases h : r.id = id <;> simp [betweenPair, h])]
  rw [hfilter]
  simp [hrow_id]

/-- `updateStatusWithClient` leaves the chats table unchanged. -/
theorem updateStatus_chats (s : DBState) (id : Nat) (st : RequestStatus)
    (reason : Option String) (cu : Option Nat) (now : Nat) :
    (updateStatusWithClient s id st reason cu now).1.chats = s.chats := rfl

/-- `updateStatusWithClient` leaves the memberships table unchanged. -/
theorem updateStatus_members (s : DBState) (id : Nat) (st : RequestStatus)
    (reason : Option String) (cu : Option Nat) (now : Nat) :
    (updateStatusWithClient s id st reason cu now).1.chat_members = s.chat_members := rfl

/-- ROLLBACK: whenever `respondRequest` reports an error, the store is the
one the transaction began with — `withTransaction` reverts every write. -/
theorem withTransaction_error_state {α : Type} (s : DBState)
    (fn : DBState → Except HttpError (DBState × α)) (e : HttpError)
    (h : (withTransaction s fn).2 = .error e) : (withTransaction s fn).1 = s := by
  unfold withTransaction at h ⊢
  rcases hb : fn s with e2 | p
  · rfl
  · obtain ⟨ps, pa⟩ := p
    rw [hb] at h
    simp at h

/-- ROLLBACK, specialised to `respondRequest`. -/
theorem respondRequest_error_state (s : DBState) (id : Nat) (acc blk : Bool)
    (reason : Option String) (now : Nat) (e : HttpError)
    (h : (respondRequest s id acc blk reason now).2 = .error e) :
    (respondRequest s id acc blk reason now).1 = s :=
  withTransaction_error_state s
    (fun s0 => respondBody s0 (findById s0 id) id acc blk reason now) e h

/-- Reduction of `respondRequest` on a pending row for the `accept` decision
when both membership inserts go through (fresh ids, distinct users): the
private chat is created with the sender as admin and the receiver as member,
and the request row is marked accepted, all in one committed state. -/
theorem respondRequest_accept_success (s : DBState) (id now : Nat) (row : ChatRequestRow)
    (hfind : findById s id = some row) (hpend : row.status = RequestStatus.pending)
    (hfresh : s.fresh = true) (hne : row.sender_id ≠ row.receiver_id) :
    respondRequest s id true false none now =
      ((updateStatusWithClient
          { s with
              chats := s.chats ++ [⟨s.nextId, ChatType.«private», none, some row.sender_id, now⟩],
              chat_members := (s.chat_members ++
                  [⟨s.nextId + 1, s.nextId, row.sender_id, MemberRole.admin, now, none⟩]) ++
                [⟨s.nextId + 2, s.nextId, row.receiver_id, MemberRole.member, now, none⟩],
              nextId := s.nextId + 3 }
          id RequestStatus.accepted none none now).1,
       .ok ⟨(updateStatusWithClient
          { s with
              chats := s.chats ++ [⟨s.nextId, ChatType.«private», none, some row.sender_id, now⟩],
              chat_members := (s.chat_members ++
                  [⟨s.nextId + 1, s.nextId, row.sender_id, MemberRole.admin, now, none⟩]) ++
                [⟨s.nextId + 2, s.nextId, row.receiver_id, MemberRole.member, now, none⟩],
              nextId := s.nextId + 3 }
          id RequestStatus.accepted none none now).2,
        some ⟨s.nextId, ChatType.«private», none, some row.sender_id, now⟩⟩) := by
  have hm1e : ¬∃ x ∈ s.chat_members, x.chat_id = s.nextId ∧ x.user_id = row.sender_id := by
    simpa using no_member_conflict_at_fresh hfresh row.sender_id
  have hm2e : ¬∃ x ∈ s.chat_members, x.chat_id = s.nextId ∧ x.user_id = row.receiver_id := by
    simpa using no_member_conflict_at_fresh hfresh row.receiver_id
  unfold respondRequest withTransaction respondBody createChatWithClient addMemberWithClient
  simp [hfind, hpend, hm1e, hm2e, hne, List.append_assoc]

/-- The accept decision on a pending row between identical sender and
receiver ids aborts with the raw membership unique violation: the second
insert collides with the first inside the fresh chat. -/
theorem respondRequest_accept_self_conflict (s : DBState) (id now : Nat)
    (row : ChatRequestRow)
    (hfind : findById s id = some row) (hpend : row.status = RequestStatus.pending)
    (hfresh : s.fresh = true) (hsr : row.sender_id = row.receiver_id) :
    (respondRequest s id true false none now).2 = .error memberUniqueViolationErr := by
  have hme : ¬∃ x ∈ s.chat_members, x.chat_id = s.nextId ∧ x.user_id = row.receiver_id := by
    simpa using no_member_conflict_at_fresh hfresh row.receiver_id
  unfold respondRequest withTransaction respondBody createChatWithClient addMemberWithClient
  simp [hfind, hpend, hsr, hme]

/-- Stored memberships of a fresh store never mention the next chat id. -/
theorem fresh_member_chat_id_lt {s : DBState} (hfresh : s.fresh = true) :
    ∀ m ∈ s.chat_members, m.chat_id < s.nextId := by
  unfold DBState.fresh at hfresh
  simp only [Bool.and_eq_true, List.all_eq_true, decide_eq_true_eq] at hfresh
  intro m hm
  exact (hfresh.1.2 m hm).2

/-- `respondRequest` on a row that is no longer pending fails with
`ALREADY_RESPONDED` and leaves the store unchanged, whatever the decision. -/
theorem respondRequest_nonpending_already (s : DBState) (id : Nat) (acc blk : Bool)
    (reason : Option String) (now : Nat) (row : ChatRequestRow)
    (hfind : findById s id = some row) (hst : row.status ≠ RequestStatus.pending) :
    respondRequest s id acc blk reason now = (s, .error alreadyRespondedErr) := by
  unfold respondRequest withTransaction respondBody
  simp [hfind, hst]

/-- **C1.**  `respond(accept)` on a pending request is atomic: either it
reports an error — in which case the store is exactly the one the call
started from, the original error from the failing step is surfaced, and the
request is still the pending row — or it succeeds, in which case the
returned private conversation is stored with `created_by` the sender, the
request row's status is `accepted`, and the conversation has exactly two
memberships: the sender as admin and the receiver as member. -/
theorem respond_accept_atomic (s : DBState) (id now : Nat) (row : ChatRequestRow)
    (hfind : findById s id = some row) (hpend : row.status = RequestStatus.pending)
    (hfresh : s.fresh = true) :
    (∀ e, (respondRequest s id true false none now).2 = .error e →
        (respondRequest s id true false none now).1 = s ∧
        findById (respondRequest s id true false none now).1 id = some row) ∧
    (∀ res, (respondRequest s id true false none now).2 = .ok res →
        ∃ chat, res.chat = some chat ∧
          chat ∈ (respondRequest s id true false none now).1.chats ∧
          chat.type = ChatType.«private» ∧
          chat.created_by = some row.sender_id ∧
          ((findById (respondRequest s id true false none now).1 id).map fun q => q.status) =
            some RequestStatus.accepted ∧
          (((respondRequest s id true false none now).1.chat_members.filter fun m =>
              decide (m.chat_id = chat.id)).map fun m => (m.user_id, m.role)) =
            [(row.sender_id, MemberRole.admin), (row.receiver_id, MemberRole.member)]) := by
  constructor
  · intro e he
    have h1 := respondRequest_error_state s id true false none now e he
    exact ⟨h1, by rw [h1]; exact hfind⟩
  · intro res hres
    by_cases hsr : row.sender_id = row.receiver_id
    · exfalso
      have hc := respondRequest_accept_self_conflict s id now row hfind hpend hfresh hsr
      rw [hres] at hc
      simp at hc
    · have hred := respondRequest_accept_success s id now row hfind hpend hfresh hsr
      rw [hred] at hres ⊢
      set s3 : DBState :=
        { s with
            chats := s.chats ++ [⟨s.nextId, ChatType.«private», none, some row.sender_id, now⟩],
            chat_members := (s.chat_members ++
                [⟨s.nextId + 1, s.nextId, row.sender_id, MemberRole.admin, now, none⟩]) ++
              [⟨s.nextId + 2, s.nextId, row.receiver_id, MemberRole.member, now, none⟩],
            nextId := s.nextId + 3 } with hs3
      have hfind3 : findById s3 id = some row := by
        rw [hs3]
        exact hfind
      have hret := updateStatus_returns_updated_row s3 id now row hfind3
        RequestStatus.accepted none none
      simp only at hres
      have hres2 := Except.ok.inj hres
      refine ⟨⟨s.nextId, ChatType.«private», none, some row.sender_id, now⟩,
        ?_, ?_, rfl, rfl, ?_, ?_⟩
      · rw [← hres2]
      · rw [updateStatus_chats, hs3]
        simp
      · rw [findById_updateStatus, hret]
        rfl
      · rw [updateStatus_members, hs3]
        have hnil : (s.chat_members.filter fun m => decide (m.chat_id = s.nextId)) = [] := by
          rw [List.filter_eq_nil_iff]
          intro m hm
          have hlt := fresh_member_chat_id_lt hfresh m hm
          simp only [decide_eq_true_eq]
          omega
        simp [List.filter_append, hnil]

/-- Witness for C1: accepting pending request 10 from user 1 to user 2 at
time 42 succeeds, and the success branch of the atomicity theorem yields the
stored private chat with exactly the two expected memberships. -/
theorem respond_accept_atomic_witness :
    (∀ e, (respondRequest pendingStoreC1 10 true false none 42).2 = .error e →
        (respondRequest pendingStoreC1 10 true false none 42).1 = pendingStoreC1 ∧
        findById (respondRequest pendingStoreC1 10 true false none 42).1 10 =
          some ⟨10, 1, 2, .pending, 0, none, none, none⟩) ∧
    (∀ res, (respondRequest pendingStoreC1 10 true false none 42).2 = .ok res →
        ∃ chat, res.chat = some chat ∧
          chat ∈ (respondRequest pendingStoreC1 10 true false none 42).1.chats ∧
          chat.type = ChatType.«private» ∧
          chat.created_by = some 1 ∧
          ((findById (respondRequest pendingStoreC1 10 true false none 42).1 10).map
              fun q => q.status) = some RequestStatus.accepted ∧
          (((respondRequest pendingStoreC1 10 true false none 42).1.chat_members.filter
              fun m => decide (m.chat_id = chat.id)).map fun m => (m.user_id, m.role)) =
            [(1, MemberRole.admin), (2, MemberRole.member)]) :=
  respond_accept_atomic pendingStoreC1 10 42 ⟨10, 1, 2, .pending, 0, none, none, none⟩
    (by decide) (by decide) (by decide)

/-- **C3 (amended).**  When the two `respond(accept)` calls are serialized —
the second starts after the first has committed — exactly one succeeds and
the other fails with `ALREADY_RESPONDED`, because the second call's
`findById` then observes the accepted status.  (The claim's stated mechanism
does not hold on the code: `findById` runs on the shared pool outside the
transaction's connection and the status update carries no `status =
'pending'` condition, so interleaved executions whose reads both precede the
first commit make both calls succeed — see the counterexample.) -/
theorem respond_serialized_exactly_one (s : DBState) (id now now2 : Nat)
    (row : ChatRequestRow)
    (hfind : findById s id = some row) (hpend : row.status = RequestStatus.pending)
    (hfresh : s.fresh = true) (hne : row.sender_id ≠ row.receiver_id) :
    isOk (respondRequest s id true false none now).2 = true ∧
    (respondRequest (respondRequest s id true false none now).1 id true false none now2).2 =
      .error alreadyRespondedErr := by
  have hred := respondRequest_accept_success s id now row hfind hpend hfresh hne
  rw [hred]
  set s3 : DBState :=
    { s with
        chats := s.chats ++ [⟨s.nextId, ChatType.«private», none, some row.sender_id, now⟩],
        chat_members := (s.chat_members ++
            [⟨s.nextId + 1, s.nextId, row.sender_id, MemberRole.admin, now, none⟩]) ++
          [⟨s.nextId + 2, s.nextId, row.receiver_id, MemberRole.member, now, none⟩],
        nextId := s.nextId + 3 } with hs3
  have hfind3 : findById s3 id = some row := by
    rw [hs3]
    exact hfind
  have hret := updateStatus_returns_updated_row s3 id now row hfind3
    RequestStatus.accepted none none
  have hfind2 : findById (updateStatusWithClient s3 id RequestStatus.accepted none none now).1 id =
      some { row with status := RequestStatus.accepted, responded_at := some now,
                      rejected_reason := none, cooldown_until := none } := by
    rw [findById_updateStatus]
    exact hret
  constructor
  · rfl
  · rw [respondRequest_nonpending_already _ id true false none now2 _ hfind2 (by simp)]

/-- Witness for the amended C3: serializing the two accepts of request 10
gives one success and one `ALREADY_RESPONDED` failure. -/
theorem respond_serialized_exactly_one_witness :
    isOk (respondRequest pendingStoreC3s 10 true false none 5).2 = true ∧
    (respondRequest (respondRequest pendingStoreC3s 10 true false none 5).1 10
        true false none 9).2 = .error alreadyRespondedErr :=
  respond_serialized_exactly_one pendingStoreC3s 10 5 9
    ⟨10, 1, 2, .pending, 0, none, none, none⟩ (by decide) (by decide) (by decide) (by decide)

/-- **C6 (amended).**  The cooldown check itself is directional: while the
only request between users `a` and `b` is a rejected one from `a` to `b`
with its cooldown active, `a`'s submission to `b` fails with
`COOLDOWN_ACTIVE`, and the cooldown check never fires for `b`'s submission
to `a`; but the reverse submission does not succeed — it fails with
`REQUEST_EXISTS`, since the retained rejected row trips the unordered,
status-blind `chat_requests_pair_unique` index. -/
theorem cooldown_directional_but_reverse_hits_pair_unique
    (s : DBState) (a b now : Nat) (row : ChatRequestRow)
    (hfilter : s.chat_requests.filter (betweenPair a b) = [row])
    (hsend : row.sender_id = a) (hrecv : row.receiver_id = b)
    (hstatus : row.status = RequestStatus.rejected)
    (hactive : cooldownStillActive row.cooldown_until now = true)
    (hne : a ≠ b)
    (hchat1 : hasPrivateChatBetween s a b = false)
    (hchat2 : hasPrivateChatBetween s b a = false) :
    sendRequest s a b now = (s, .error cooldownActiveErr) ∧
    hasActiveRejectedCooldown s b a now = false ∧
    sendRequest s b a now = (s, .error requestExistsErr) := by
  have hcool_ab : hasActiveRejectedCooldown s a b now = true := by
    rw [hasActiveRejectedCooldown_eq_of_pair_filter s a b now row hfilter hsend hrecv]
    simp [hstatus, hactive]
  have hcool_ba := hasActiveRejectedCooldown_reverse_false s a b now row hfilter hsend hne
  have hpnone := findPendingBetween_none_of_pair_filter s a b b a row hfilter
    (by simp [hstatus]) (Or.inr ⟨rfl, rfl⟩)
  have hconf : pairConflict s.chat_requests b a = true :=
    pairConflict_of_mem (mem_of_pair_filter hfilter) b a (Or.inr ⟨hsend, hrecv⟩)
  have hne2 : b ≠ a := fun h => hne h.symm
  refine ⟨?_, hcool_ba, ?_⟩
  · unfold sendRequest
    simp [hne, hchat1, hcool_ab]
  · unfold sendRequest createRequest
    simp [hne2, hchat2, hcool_ba, hpnone, hconf]

/-- Witness for the amended C6: with the rejected request from user 1 to
user 2 under active cooldown, user 1's submission fails `COOLDOWN_ACTIVE`
while user 2's reverse submission escapes the cooldown check yet fails with
`REQUEST_EXISTS`. -/
theorem cooldown_directional_but_reverse_hits_pair_unique_witness :
    sendRequest rejectedStoreC6w 1 2 99 = (rejectedStoreC6w, .error cooldownActiveErr) ∧
    hasActiveRejectedCooldown rejectedStoreC6w 2 1 99 = false ∧
    sendRequest rejectedStoreC6w 2 1 99 = (rejectedStoreC6w, .error requestExistsErr) :=
  cooldown_directional_but_reverse_hits_pair_unique rejectedStoreC6w 1 2 99
    ⟨10, 1, 2, .rejected, 0, some 50, some "busy", some 100⟩
    (by decide) rfl rfl rfl (by decide) (by decide) (by decide) (by decide)

/-- **C5 (amended).**  Rejecting a pending request sets `status = rejected`,
`responded_at = now`, the optional reason, and `cooldown_until = now + 7
days` exactly; afterwards a resubmission by the original sender fails with
`COOLDOWN_ACTIVE` at every time strictly before `cooldown_until` — but once
`cooldown_until` is reached it does not succeed: it fails with
`REQUEST_EXISTS`, because the rejected row is retained and the
`chat_requests_pair_unique` index has no status filter. -/
theorem respond_reject_cooldown_then_pair_unique
    (s : DBState) (id now : Nat) (row : ChatRequestRow) (reason : Option String)
    (hfind : findById s id = some row) (hpend : row.status = RequestStatus.pending)
    (hfilter : s.chat_requests.filter (betweenPair row.sender_id row.receiver_id) = [row])
    (hne : row.sender_id ≠ row.receiver_id)
    (hchat : hasPrivateChatBetween s row.sender_id row.receiver_id = false) :
    ∃ upd, (respondRequest s id false false reason now).2 = .ok ⟨some upd, none⟩ ∧
      upd.status = .rejected ∧ upd.responded_at = some now ∧
      upd.rejected_reason = reason ∧
      upd.cooldown_until = some (now + 7 * 24 * 60 * 60 * 1000) ∧
      (∀ t, t < now + 7 * 24 * 60 * 60 * 1000 →
        sendRequest (respondRequest s id false false reason now).1
            row.sender_id row.receiver_id t =
          ((respondRequest s id false false reason now).1, .error cooldownActiveErr)) ∧
      (∀ t, now + 7 * 24 * 60 * 60 * 1000 ≤ t →
        sendRequest (respondRequest s id false false reason now).1
            row.sender_id row.receiver_id t =
          ((respondRequest s id false false reason now).1, .error requestExistsErr)) := by
  have hrow_id : row.id = id := by
    have := List.find?_some hfind
    simpa using this
  have hred := respondRequest_reject_eq s id now row reason hfind hpend
  have hret := updateStatus_returns_updated_row s id now row hfind
    RequestStatus.rejected reason (some (now + 7 * 24 * 60 * 60 * 1000))
  let upd : ChatRequestRow :=
    { row with status := RequestStatus.rejected, responded_at := some now,
               rejected_reason := reason,
               cooldown_until := some (now + 7 * 24 * 60 * 60 * 1000) }
  have hfilter1 : (updateStatusWithClient s id RequestStatus.rejected reason
      (some (now + 7 * 24 * 60 * 60 * 1000)) now).1.chat_requests.filter
        (betweenPair row.sender_id row.receiver_id) = [upd] :=
    pair_rows_after_update s id now row _ _ hfilter hrow_id _ _ _
  refine ⟨upd, ?_, rfl, rfl, rfl, rfl, ?_, ?_⟩
  · rw [hred]
    simp [hret]
  · intro t ht
    rw [hred]
    simp only
    have hcool : hasActiveRejectedCooldown
        (updateStatusWithClient s id RequestStatus.rejected reason
          (some (now + 7 * 24 * 60 * 60 * 1000)) now).1
        row.sender_id row.receiver_id t = true := by
      rw [hasActiveRejectedCooldown_eq_of_pair_filter _ _ _ t upd hfilter1 rfl rfl]
      simp [cooldownStillActive, ht]
    unfold sendRequest
    rw [hasPrivateChatBetween_updateStatus]
    simp [hne, hchat, hcool]
  · intro t ht
    rw [hred]
    simp only
    have hcool : hasActiveRejectedCooldown
        (updateStatusWithClient s id RequestStatus.rejected reason
          (some (now + 7 * 24 * 60 * 60 * 1000)) now).1
        row.sender_id row.receiver_id t = false := by
      rw [hasActiveRejectedCooldown_eq_of_pair_filter _ _ _ t upd hfilter1 rfl rfl]
      simp [cooldownStillActive, Nat.not_lt.mpr ht]
    have hpnone : findPendingBetween
        (updateStatusWithClient s id RequestStatus.rejected reason
          (some (now + 7 * 24 * 60 * 60 * 1000)) now).1
        row.sender_id row.receiver_id = none :=
      findPendingBetween_none_of_pair_filter _ _ _ _ _ upd hfilter1
        (by simp) (Or.inl ⟨rfl, rfl⟩)
    have hconf : pairConflict
        (updateStatusWithClient s id RequestStatus.rejected reason
          (some (now + 7 * 24 * 60 * 60 * 1000)) now).1.chat_requests
        row.sender_id row.receiver_id = true :=
      pairConflict_of_mem (mem_of_pair_filter hfilter1) _ _ (Or.inl ⟨rfl, rfl⟩)
    unfold sendRequest createRequest
    rw [hasPrivateChatBetween_updateStatus]
    simp [hne, hchat, hcool, hpnone, hconf]

/-- Witness for the amended C5: rejecting pending request 10 at time 0 sets
the cooldown to 604800000 ms; the sender's resubmission fails
`COOLDOWN_ACTIVE` before that instant and `REQUEST_EXISTS` from it on. -/
theorem respond_reject_cooldown_then_pair_unique_witness :
    ∃ upd, (respondRequest pendingStoreC5 10 false false (some "no") 0).2 =
        .ok ⟨some upd, none⟩ ∧
      upd.status = .rejected ∧ upd.responded_at = some 0 ∧
      upd.rejected_reason = some "no" ∧
      upd.cooldown_until = some (0 + 7 * 24 * 60 * 60 * 1000) ∧
      (∀ t, t < 0 + 7 * 24 * 60 * 60 * 1000 →
        sendRequest (respondRequest pendingStoreC5 10 false false (some "no") 0).1 1 2 t =
          ((respondRequest pendingStoreC5 10 false false (some "no") 0).1,
           .error cooldownActiveErr)) ∧
      (∀ t, 0 + 7 * 24 * 60 * 60 * 1000 ≤ t →
        sendRequest (respondRequest pendingStoreC5 10 false false (some "no") 0).1 1 2 t =
          ((respondRequest pendingStoreC5 10 false false (some "no") 0).1,
           .error requestExistsErr)) :=
  respond_reject_cooldown_then_pair_unique pendingStoreC5 10 0
    ⟨10, 1, 2, .pending, 0, none, none, none⟩ (some "no")
    (by decide) (by decide) (by decide) (by decide) (by decide)

/-- **C4.**  Responding to a pending request with the `block` decision sets
`status = blocked` and `responded_at = now` and leaves `rejected_reason` and
`cooldown_until` null — both on the returned row and in the store — and from
then on `submit()` between the pair is rejected in both directions at every
later time, with the store left unchanged: the blocked row is retained
forever and trips the status-blind `chat_requests_pair_unique` index, so no
cooldown expiry can ever override a block. -/
theorem respond_block_permanent (s : DBState) (id now : Nat) (row : ChatRequestRow)
    (hfind : findById s id = some row) (hpend : row.status = RequestStatus.pending)
    (hne : row.sender_id ≠ row.receiver_id) :
    ∃ upd, (respondRequest s id false true none now).2 = .ok ⟨some upd, none⟩ ∧
      upd.status = .blocked ∧ upd.responded_at = some now ∧
      upd.rejected_reason = none ∧ upd.cooldown_until = none ∧
      findById (respondRequest s id false true none now).1 id = some upd ∧
      ∀ t, isError (sendRequest (respondRequest s id false true none now).1
              row.sender_id row.receiver_id t).2 = true ∧
           isError (sendRequest (respondRequest s id false true none now).1
              row.receiver_id row.sender_id t).2 = true := by
  have hret := updateStatus_returns_updated_row s id now row hfind
    RequestStatus.blocked none none
  have hmem := updateStatus_mem s id now row hfind RequestStatus.blocked none none
  have hred := respondRequest_block_eq s id now row hfind hpend
  let upd : ChatRequestRow :=
    { row with status := RequestStatus.blocked, responded_at := some now,
               rejected_reason := none, cooldown_until := none }
  refine ⟨upd, ?_, rfl, rfl, rfl, rfl, ?_, ?_⟩
  · rw [hred]
    simp [hret]
  · rw [hred]
    simp only
    rw [findById_updateStatus]
    exact hret
  · intro t
    rw [hred]
    simp only
    have hconf1 : pairConflict
        (updateStatusWithClient s id RequestStatus.blocked none none now).1.chat_requests
        row.sender_id row.receiver_id = true :=
      pairConflict_of_mem hmem _ _ (Or.inl ⟨rfl, rfl⟩)
    have hconf2 : pairConflict
        (updateStatusWithClient s id RequestStatus.blocked none none now).1.chat_requests
        row.receiver_id row.sender_id = true :=
      pairConflict_of_mem hmem _ _ (Or.inr ⟨rfl, rfl⟩)
    exact ⟨(sendRequest_fails_of_pairConflict _ _ _ t hne hconf1).2,
           (sendRequest_fails_of_pairConflict _ _ _ t (fun h => hne h.symm) hconf2).2⟩

/-- Witness for C4: blocking pending request 10 from user 1 to user 2 at time
42 yields a blocked row with null reason and cooldown, and submissions in
both directions still fail a year later. -/
theorem respond_block_permanent_witness :
    ∃ upd, (respondRequest pendingStoreC4 10 false true none 42).2 = .ok ⟨some upd, none⟩ ∧
      upd.status = .blocked ∧ upd.responded_at = some 42 ∧
      upd.rejected_reason = none ∧ upd.cooldown_until = none ∧
      findById (respondRequest pendingStoreC4 10 false true none 42).1 10 = some upd ∧
      ∀ t, isError (sendRequest (respondRequest pendingStoreC4 10 false true none 42).1 1 2 t).2 = true ∧
           isError (sendRequest (respondRequest pendingStoreC4 10 false true none 42).1 2 1 t).2 = true :=
  respond_block_permanent pendingStoreC4 10 42 ⟨10, 1, 2, .pending, 0, none, none, none⟩
    (by decide) (by decide) (by decide)

/-- Witness for C10: user 3 is not a member of chat 1 in `joinStore` and
socket 7 never joined room 1, yet its message is broadcast to room 1 and
received by socket 9. -/
theorem send_message_no_access_control_witness :
    isUserMember joinStore 3 1 = false ∧
    inRoom roomStateC10 1 7 = false ∧
    handleSendMessage joinStore roomStateC10 ⟨7, 3⟩ (some 1) "hey" 8 =
      [.toRoomAll 1 (.chatNewMessage "msg-8" 1 3 "hey" 8)] ∧
    receivesAny roomStateC10 (handleSendMessage joinStore roomStateC10 ⟨7, 3⟩ (some 1) "hey" 8) 9 = true := by
  have h := send_message_no_access_control joinStore roomStateC10 ⟨7, 3⟩ 1 "hey" 8 (by decide)
  exact ⟨by decide, by decide, h.1, h.2 9 (by decide)⟩

end BeChatApp
